import Mathlib

/-!
Shallow embedding of `src/agent-demo/scripts/validate_environment.py`.

The script runs three environment checks (Python version, installed
packages, Google Cloud CLI configuration), prints human-readable status
lines, and exits 0 exactly when all checks pass.

Modelling choices:
* Each `print(...)` call in the script is one `Msg` event; a run's output
  is the ordered list of events. `render` maps each event to the exact
  string the script prints.
* The environment a run observes is explicit input: the interpreter
  version triple, an oracle `String → Option String` for
  `importlib.metadata.version` (`none` models `PackageNotFoundError`),
  and the outcomes of the two `subprocess.run` invocations.
* The first `subprocess.run` can end three ways: it completes with an
  exit code and stdout, it raises `TimeoutExpired`, or it raises
  `FileNotFoundError` (binary missing).  The second invocation is only
  reached after the first completed, so the binary exists and its
  `except` clause only needs `TimeoutExpired`; its outcome type
  (`ProcOutcome2`) therefore has no `notFound` case.
* `str.strip()` is modelled by `strip` below: drop ASCII whitespace
  characters from both ends of the string.
-/

namespace ValidateEnv

/-- Characters Python's `str.strip()` removes (the ASCII whitespace
subset; the claims only involve `"(unset)"` and empty results). -/
def isPyWhitespace (c : Char) : Bool :=
  c = ' ' || c = '\t' || c = '\n' || c = '\r' || c = '\x0b' || c = '\x0c'

/-- Python's `str.strip()`: remove leading and trailing whitespace. -/
def strip (s : String) : String :=
  String.mk (((s.data.dropWhile isPyWhitespace).reverse.dropWhile isPyWhitespace).reverse)

/-- Interpreter version triple, modelling `sys.version_info`
(major, minor, micro). -/
structure VersionInfo where
  major : Nat
  minor : Nat
  micro : Nat
deriving DecidableEq, Repr

/-- Outcome of the first `subprocess.run` call (`gcloud version`):
completion with a return code and captured stdout, `TimeoutExpired`, or
`FileNotFoundError`. -/
inductive ProcOutcome where
  | completed (returncode : Int) (stdout : String)
  | timedOut
  | notFound
deriving DecidableEq, Repr

/-- Outcome of the second `subprocess.run` call
(`gcloud config get-value project`).  It is reached only after the first
call completed, so the binary exists and `FileNotFoundError` cannot
occur; only completion or `TimeoutExpired` are possible. -/
inductive ProcOutcome2 where
  | completed (returncode : Int) (stdout : String)
  | timedOut
deriving DecidableEq, Repr

/-- Outcomes of the two `gcloud` child-process invocations observed by a
run of `check_gcloud`. -/
structure GcloudEnv where
  versionRun : ProcOutcome
  projectRun : ProcOutcome2
deriving DecidableEq, Repr

/-- Everything a run of the script observes from its environment. -/
structure Env where
  version : VersionInfo
  pkgVersion : String → Option String
  gcloud : GcloudEnv

/-- One `print(...)` event of the script; each constructor corresponds to
exactly one `print` statement in the source, carrying its dynamic
parts. -/
inductive Msg where
  | checkingPython
  | pythonBad (major minor : Nat)
  | pythonRequired
  | pythonOk (major minor micro : Nat)
  | checkingPackages
  | pkgOk (package ver : String)
  | pkgMissing (package : String)
  | installMissingHeader
  | pipInstall
  | checkingGcloud
  | gcloudNotFound
  | gcloudInstallHint
  | gcloudInstalled
  | projectConfigured (project : String)
  | noProject
  | runSetProject
  | couldNotCheck
  | bannerLine
  | title
  | nlBannerLine
  | allPassed
  | nextStep
  | someFailed
deriving DecidableEq, Repr

/-- The exact string each event prints (the argument of the
corresponding `print` call in the script). -/
def render : Msg → String
  | .checkingPython => "Checking Python version..."
  | .pythonBad major minor =>
      "  ✗ Python " ++ toString major ++ "." ++ toString minor ++ " detected"
  | .pythonRequired => "  ✓ Python 3.10+ required"
  | .pythonOk major minor micro =>
      "  ✓ Python " ++ toString major ++ "." ++ toString minor ++ "." ++ toString micro
  | .checkingPackages => "\nChecking Python packages..."
  | .pkgOk package ver => "  ✓ " ++ package ++ " (" ++ ver ++ ")"
  | .pkgMissing package => "  ✗ " ++ package ++ " not installed"
  | .installMissingHeader => "\n  Install missing packages:"
  | .pipInstall => "  pip install google-genai google-adk google-cloud-aiplatform a2a-sdk"
  | .checkingGcloud => "\nChecking Google Cloud CLI..."
  | .gcloudNotFound => "  ✗ gcloud not found"
  | .gcloudInstallHint => "  Install: https://cloud.google.com/sdk/docs/install"
  | .gcloudInstalled => "  ✓ gcloud installed"
  | .projectConfigured project => "  ✓ Project configured: " ++ project
  | .noProject => "  ✗ No project configured"
  | .runSetProject => "  Run: gcloud config set project YOUR_PROJECT_ID"
  | .couldNotCheck => "  ✗ Could not check project configuration"
  | .bannerLine => String.mk (List.replicate 60 '=')
  | .title => "Agent Demo Environment Validation"
  | .nlBannerLine => "\n" ++ String.mk (List.replicate 60 '=')
  | .allPassed => "✓ All checks passed! You're ready to start building agents."
  | .nextStep => "\nNext step: Start with references/basic-sdk-agent.md"
  | .someFailed => "✗ Some checks failed. Please fix the issues above."

/-- Python's `sys.version_info < (3, 10)`: lexicographic comparison of
the five-component version tuple against `(3, 10)`.  It is decided by the
first two components alone: when `major = 3` and `minor = 10` the
version tuple is longer, hence strictly greater, so `<` is `false`. -/
def versionBelowMin (v : VersionInfo) : Bool :=
  v.major < 3 || (v.major == 3 && v.minor < 10)

/-- Embedding of `check_python_version` (lines 12–20): print a header,
then fail when the interpreter version tuple is below `(3, 10)`, pass
otherwise.  Returns the printed events and the boolean result. -/
def check_python_version (v : VersionInfo) : List Msg × Bool :=
  if versionBelowMin v then
    ([.checkingPython, .pythonBad v.major v.minor, .pythonRequired], false)
  else
    ([.checkingPython, .pythonOk v.major v.minor v.micro], true)

/-- The assignment `import_name = import_name or package_name`
(line 26): Python truthiness makes both `None` and the empty string fall
back to `package_name`. -/
def importNameOr (package_name : String) : Option String → String
  | none => package_name
  | some s => if s = "" then package_name else s

/-- Embedding of `check_package` (lines 23–32).  `pv` is the
`importlib.metadata.version` oracle (`none` models
`PackageNotFoundError`, the only exception the function catches). -/
def check_package (pv : String → Option String)
    (package_name : String) (import_name : Option String) : List Msg × Bool :=
  match pv (importNameOr package_name import_name) with
  | some ver => ([.pkgOk package_name ver], true)
  | none => ([.pkgMissing package_name], false)

/-- The fixed required-package list of `check_packages` (lines 38–43):
(display name, lookup identifier) pairs. -/
def required : List (String × String) :=
  [("google-genai", "google.genai"),
   ("google-adk", "google.adk"),
   ("google-cloud-aiplatform", "google.cloud.aiplatform"),
   ("a2a-sdk", "a2a")]

/-- The `for package, import_name in required` loop of `check_packages`
(lines 45–48): run `check_package` on every entry in order, concatenate
their printed events, and conjoin their boolean results
(`all_installed` starts `True` and is set to `False` on each failure). -/
def packagesLoop (pv : String → Option String) :
    List (String × String) → List Msg × Bool
  | [] => ([], true)
  | p :: rest =>
    let r := check_package pv p.1 (some p.2)
    let rrest := packagesLoop pv rest
    (r.1 ++ rrest.1, r.2 && rrest.2)

/-- Embedding of `check_packages` (lines 35–54), generalised over the
required list (the source fixes it to `required`): print a header, run
the loop, and when any entry failed print the two-line remediation hint
before returning the aggregate boolean. -/
def check_packagesWith (pv : String → Option String)
    (reqs : List (String × String)) : List Msg × Bool :=
  let loop := packagesLoop pv reqs
  let msgs := Msg.checkingPackages :: loop.1
  if loop.2 then (msgs, true)
  else (msgs ++ [.installMissingHeader, .pipInstall], false)

/-- `check_packages` as in the source: the loop over the fixed
`required` list. -/
def check_packages (pv : String → Option String) : List Msg × Bool :=
  check_packagesWith pv required

/-- The `timeout=5` argument of the first `subprocess.run` call
(line 67). -/
def gcloudVersionTimeoutSeconds : Nat := 5

/-- The `timeout=5` argument of the second `subprocess.run` call
(line 84). -/
def gcloudProjectTimeoutSeconds : Nat := 5

/-- Embedding of `check_gcloud` (lines 57–96): print a header; if the
first invocation raised (`TimeoutExpired` or `FileNotFoundError`) fail
with the installation hint; if it completed with non-zero status fail
(no hint); otherwise run the project query: on timeout fail with a
"could not check" message, on completion pass exactly when the trimmed
stdout is non-empty and not `"(unset)"` (the query's exit status is not
inspected). -/
def check_gcloud (env : GcloudEnv) : List Msg × Bool :=
  match env.versionRun with
  | .notFound =>
      ([.checkingGcloud, .gcloudNotFound, .gcloudInstallHint], false)
  | .timedOut =>
      ([.checkingGcloud, .gcloudNotFound, .gcloudInstallHint], false)
  | .completed rc _ =>
    if rc ≠ 0 then
      ([.checkingGcloud, .gcloudNotFound], false)
    else
      match env.projectRun with
      | .timedOut =>
          ([.checkingGcloud, .gcloudInstalled, .couldNotCheck], false)
      | .completed _ stdout =>
        let project := strip stdout
        if project ≠ "" ∧ project ≠ "(unset)" then
          ([.checkingGcloud, .gcloudInstalled, .projectConfigured project], true)
        else
          ([.checkingGcloud, .gcloudInstalled, .noProject, .runSetProject], false)

/-- Embedding of `main` (lines 99–118) together with
`sys.exit(main())` (line 122): print the banner, evaluate the three
checks in order (the Python list display `[check_python_version(),
check_packages(), check_gcloud()]` evaluates all three
unconditionally), then print the closing summary and return the exit
code: 0 when all passed, 1 otherwise. -/
def main (env : Env) : List Msg × Nat :=
  let r1 := check_python_version env.version
  let r2 := check_packages env.pkgVersion
  let r3 := check_gcloud env.gcloud
  let header := [Msg.bannerLine, Msg.title, Msg.bannerLine]
  let body := r1.1 ++ r2.1 ++ r3.1
  if r1.2 && r2.2 && r3.2 then
    (header ++ body ++ [.nlBannerLine, .allPassed, .nextStep], 0)
  else
    (header ++ body ++ [.nlBannerLine, .someFailed], 1)

/-! Helper lemmas shared by the claim theorems. -/

/-- Messages only the closing summary of `main` can emit. -/
def isSummary : Msg → Bool
  | .allPassed => true
  | .someFailed => true
  | _ => false

/-- Every message `check_package` emits is a per-package status line. -/
lemma check_package_mem (pv : String → Option String) (n : String) (i : Option String) :
    ∀ m ∈ (check_package pv n i).1, (∃ w, m = Msg.pkgOk n w) ∨ m = Msg.pkgMissing n := by
  intro m hm
  unfold check_package at hm
  split at hm <;> simp at hm
  · exact Or.inl ⟨_, hm⟩
  · exact Or.inr hm

/-- Every message the package loop emits is a per-package status line. -/
lemma packagesLoop_mem (pv : String → Option String) (reqs : List (String × String)) :
    ∀ m ∈ (packagesLoop pv reqs).1,
      (∃ n w, m = Msg.pkgOk n w) ∨ ∃ n, m = Msg.pkgMissing n := by
  induction reqs with
  | nil => simp [packagesLoop]
  | cons p rest ih =>
    intro m hm
    simp only [packagesLoop, List.mem_append] at hm
    rcases hm with hm | hm
    · rcases check_package_mem pv p.1 (some p.2) m hm with ⟨w, rfl⟩ | rfl
      · exact Or.inl ⟨_, _, rfl⟩
      · exact Or.inr ⟨_, rfl⟩
    · exact ih m hm

/-- The aggregate boolean of the package loop is the conjunction of the
per-entry results. -/
lemma packagesLoop_snd (pv : String → Option String) (reqs : List (String × String)) :
    (packagesLoop pv reqs).2 = reqs.all fun p => (check_package pv p.1 (some p.2)).2 := by
  induction reqs with
  | nil => rfl
  | cons p rest ih => simp [packagesLoop, ih]

/-- The aggregate boolean of `check_packagesWith` is that of its loop. -/
lemma check_packagesWith_snd (pv : String → Option String) (reqs : List (String × String)) :
    (check_packagesWith pv reqs).2 = (packagesLoop pv reqs).2 := by
  unfold check_packagesWith
  dsimp only
  split <;> simp_all

/-- With a non-empty import name, `check_package` passes exactly when
the oracle resolves that name. -/
lemma check_package_snd (pv : String → Option String) (n i : String) (h : i ≠ "") :
    (check_package pv n (some i)).2 = (pv i).isSome := by
  simp only [check_package, importNameOr, if_neg h]
  cases pv i <;> rfl

/-- No message of the version check is a closing summary message. -/
lemma check_python_version_no_summary (v : VersionInfo) :
    ∀ m ∈ (check_python_version v).1, isSummary m = false := by
  intro m hm
  unfold check_python_version at hm
  split at hm <;> simp at hm <;> rcases hm with rfl | rfl | rfl <;> rfl

/-- No message of the package check is a closing summary message. -/
lemma check_packagesWith_no_summary (pv : String → Option String)
    (reqs : List (String × String)) :
    ∀ m ∈ (check_packagesWith pv reqs).1, isSummary m = false := by
  intro m hm
  have loop : ∀ m ∈ (packagesLoop pv reqs).1, isSummary m = false := by
    intro m hm
    rcases packagesLoop_mem pv reqs m hm with ⟨n, w, rfl⟩ | ⟨n, rfl⟩ <;> rfl
  unfold check_packagesWith at hm
  dsimp only at hm
  split at hm <;> simp at hm <;> rcases hm with rfl | hm
  · rfl
  · exact loop m hm
  · rfl
  · rcases hm with hm | rfl | rfl
    · exact loop m hm
    · rfl
    · rfl

/-- The five possible outcomes of the CLI check: install-hint failure,
bare "not found" failure, timeout failure, configured-project pass, and
unconfigured-project failure. -/
lemma check_gcloud_cases (g : GcloudEnv) :
    check_gcloud g = ([.checkingGcloud, .gcloudNotFound, .gcloudInstallHint], false) ∨
    check_gcloud g = ([.checkingGcloud, .gcloudNotFound], false) ∨
    check_gcloud g = ([.checkingGcloud, .gcloudInstalled, .couldNotCheck], false) ∨
    (∃ p, check_gcloud g =
      ([.checkingGcloud, .gcloudInstalled, .projectConfigured p], true)) ∨
    check_gcloud g =
      ([.checkingGcloud, .gcloudInstalled, .noProject, .runSetProject], false) := by
  rcases g with ⟨vr, pr⟩
  rcases vr with ⟨rc, s⟩ | _ | _
  · by_cases h : rc ≠ 0
    · exact Or.inr (Or.inl (by simp [check_gcloud, h]))
    · rcases pr with ⟨rc2, out⟩ | _
      · by_cases h2 : strip out ≠ "" ∧ strip out ≠ "(unset)"
        · exact Or.inr (Or.inr (Or.inr (Or.inl
            ⟨strip out, by simp [check_gcloud, h, h2]⟩)))
        · exact Or.inr (Or.inr (Or.inr (Or.inr (by simp [check_gcloud, h, h2]))))
      · exact Or.inr (Or.inr (Or.inl (by simp [check_gcloud, h])))
  · exact Or.inl rfl
  · exact Or.inl rfl

/-- No message of the CLI check is a closing summary message. -/
lemma check_gcloud_no_summary (g : GcloudEnv) :
    ∀ m ∈ (check_gcloud g).1, isSummary m = false := by
  intro m hm
  rcases check_gcloud_cases g with h | h | h | ⟨p, h⟩ | h <;> rw [h] at hm <;>
    simp at hm <;> rcases hm with rfl | rfl | rfl | rfl <;> rfl

/-- The package-check header is always printed. -/
lemma checkingPackages_mem (pv : String → Option String) (reqs : List (String × String)) :
    Msg.checkingPackages ∈ (check_packagesWith pv reqs).1 := by
  unfold check_packagesWith
  dsimp only
  split <;> simp

/-- The CLI-check header is always printed. -/
lemma checkingGcloud_mem (g : GcloudEnv) :
    Msg.checkingGcloud ∈ (check_gcloud g).1 := by
  rcases check_gcloud_cases g with h | h | h | ⟨p, h⟩ | h <;> rw [h] <;> simp

/-- A closing summary message never appears in the output of any of the
three checks. -/
lemma summary_not_in_checks (env : Env) (m : Msg) (hm : isSummary m = true) :
    m ∉ (check_python_version env.version).1 ∧
      m ∉ (check_packages env.pkgVersion).1 ∧
      m ∉ (check_gcloud env.gcloud).1 := by
  refine ⟨fun h => ?_, fun h => ?_, fun h => ?_⟩
  · rw [check_python_version_no_summary env.version m h] at hm
    exact Bool.noConfusion hm
  · rw [check_packagesWith_no_summary env.pkgVersion required m h] at hm
    exact Bool.noConfusion hm
  · rw [check_gcloud_no_summary env.gcloud m h] at hm
    exact Bool.noConfusion hm

/-- The package check passes exactly when the oracle resolves every
required lookup identifier. -/
lemma check_packages_snd_iff (pv : String → Option String) :
    (check_packages pv).2 = true ↔ ∀ p ∈ required, (pv p.2).isSome = true := by
  cases h1 : pv "google.genai" <;> cases h2 : pv "google.adk" <;>
    cases h3 : pv "google.cloud.aiplatform" <;> cases h4 : pv "a2a" <;>
    simp [check_packages, check_packagesWith, packagesLoop, check_package,
      importNameOr, required, h1, h2, h3, h4]

/-- When some required package is missing, the remediation line is
printed exactly once. -/
lemma check_packages_count_pip (pv : String → Option String)
    (hex : ∃ p ∈ required, pv p.2 = none) :
    (check_packages pv).1.count Msg.pipInstall = 1 := by
  cases h1 : pv "google.genai" <;> cases h2 : pv "google.adk" <;>
    cases h3 : pv "google.cloud.aiplatform" <;> cases h4 : pv "a2a" <;>
    simp [check_packages, check_packagesWith, packagesLoop, check_package,
      importNameOr, required, h1, h2, h3, h4,
      List.count_cons, List.count_append, List.count_nil] at hex ⊢

/-- When the package check passes, the remediation line is absent. -/
lemma check_packages_pass_no_pip (pv : String → Option String)
    (h : (check_packages pv).2 = true) :
    Msg.pipInstall ∉ (check_packages pv).1 := by
  cases h1 : pv "google.genai" <;> cases h2 : pv "google.adk" <;>
    cases h3 : pv "google.cloud.aiplatform" <;> cases h4 : pv "a2a" <;>
    simp [check_packages, check_packagesWith, packagesLoop, check_package,
      importNameOr, required, h1, h2, h3, h4] at h ⊢

/-- When some required package is missing, the package check fails. -/
lemma check_packages_fail_of_missing (pv : String → Option String)
    (hex : ∃ p ∈ required, pv p.2 = none) :
    (check_packages pv).2 = false := by
  cases hb : (check_packages pv).2
  · rfl
  · obtain ⟨p, hp, hpn⟩ := hex
    have hall := (check_packages_snd_iff pv).mp hb p hp
    rw [hpn] at hall
    exact Bool.noConfusion hall

/-! Claim theorems. -/

/-- C2: the version check passes exactly when the interpreter's
(major, minor) is at least (3, 10). -/
theorem check_python_version_pass_iff (v : VersionInfo) :
    (check_python_version v).2 = true ↔
      3 < v.major ∨ (v.major = 3 ∧ 10 ≤ v.minor) := by
  cases hb : versionBelowMin v <;>
    simp [check_python_version, hb] <;>
    simp [versionBelowMin] at hb <;>
    omega

/-- C3 counterexample: when the first `gcloud` invocation completes with
a non-zero exit status, the CLI check fails but the installation hint is
NOT printed, contradicting the claim that every first-invocation failure
prints an installation hint. -/
theorem check_gcloud_nonzero_no_hint_cex :
    (check_gcloud ⟨.completed 1 "", .completed 0 "some-project"⟩).2 = false ∧
      Msg.gcloudInstallHint ∉ (check_gcloud ⟨.completed 1 "", .completed 0 "some-project"⟩).1 := by
  decide

/-- C3 amended: if the tool binary is missing or the first invocation
times out, the CLI check fails immediately with the installation hint
and without attempting the second invocation (the result does not depend
on the second invocation's outcome); if the first invocation returns a
non-zero status, the check fails immediately without the second
invocation, printing only "gcloud not found" and no installation
hint. -/
theorem check_gcloud_first_invocation_failure :
    (∀ pr : ProcOutcome2, check_gcloud ⟨.notFound, pr⟩ =
        ([.checkingGcloud, .gcloudNotFound, .gcloudInstallHint], false)) ∧
    (∀ pr : ProcOutcome2, check_gcloud ⟨.timedOut, pr⟩ =
        ([.checkingGcloud, .gcloudNotFound, .gcloudInstallHint], false)) ∧
    (∀ (rc : Int) (s : String) (pr : ProcOutcome2), rc ≠ 0 →
        check_gcloud ⟨.completed rc s, pr⟩ = ([.checkingGcloud, .gcloudNotFound], false)) := by
  refine ⟨fun pr => rfl, fun pr => rfl, fun rc s pr h => ?_⟩
  simp [check_gcloud, h]

/-- Witness for the amended C3 theorem at a concrete non-zero status. -/
theorem check_gcloud_first_invocation_failure_witness :
    (1 : Int) ≠ 0 ∧
      check_gcloud ⟨.completed 1 "boom", .timedOut⟩ =
        ([.checkingGcloud, .gcloudNotFound], false) :=
  ⟨by decide, check_gcloud_first_invocation_failure.2.2 1 "boom" .timedOut (by decide)⟩

/-- C4: after a successful first invocation, the project query decides
the CLI check: a completed query passes exactly when its trimmed stdout
is non-empty and not `"(unset)"`, in which case that trimmed string is
echoed; an empty or `"(unset)"` result fails with a configuration hint;
a timeout fails with a "could not check" message. -/
theorem check_gcloud_project_query (s stdout : String) (rc2 : Int) :
    (check_gcloud ⟨.completed 0 s, .completed rc2 stdout⟩ =
      if strip stdout ≠ "" ∧ strip stdout ≠ "(unset)" then
        ([.checkingGcloud, .gcloudInstalled, .projectConfigured (strip stdout)], true)
      else
        ([.checkingGcloud, .gcloudInstalled, .noProject, .runSetProject], false)) ∧
    (check_gcloud ⟨.completed 0 s, .timedOut⟩ =
      ([.checkingGcloud, .gcloudInstalled, .couldNotCheck], false)) ∧
    render (.projectConfigured (strip stdout)) = "  ✓ Project configured: " ++ strip stdout := by
  refine ⟨?_, rfl, rfl⟩
  simp [check_gcloud]

/-- C7: on the empty required-package list the package check prints only
its header and passes; neither remediation message appears. -/
theorem check_packagesWith_nil (pv : String → Option String) :
    check_packagesWith pv [] = ([Msg.checkingPackages], true) ∧
      Msg.pipInstall ∉ (check_packagesWith pv []).1 ∧
      Msg.installMissingHeader ∉ (check_packagesWith pv []).1 := by
  refine ⟨rfl, ?_, ?_⟩ <;> simp [check_packagesWith, packagesLoop]

/-- C8: both `gcloud` invocations carry the fixed finite timeout of the
source (`timeout=5`), and a timeout of either invocation makes the CLI
check return fail. -/
theorem check_gcloud_timeouts_bounded :
    0 < gcloudVersionTimeoutSeconds ∧ 0 < gcloudProjectTimeoutSeconds ∧
    (∀ pr : ProcOutcome2, (check_gcloud ⟨.timedOut, pr⟩).2 = false) ∧
    (∀ s : String, (check_gcloud ⟨.completed 0 s, .timedOut⟩).2 = false) := by
  refine ⟨by decide, by decide, fun pr => rfl, fun s => ?_⟩
  simp [check_gcloud]

/-- C9: the exit status of the project query is ignored: the CLI check's
result does not depend on it, and when the trimmed query output is
non-empty and not `"(unset)"` the check passes even under a non-zero
query status. -/
theorem check_gcloud_second_status_ignored (s out : String) (rc rc2 : Int) :
    check_gcloud ⟨.completed 0 s, .completed rc out⟩ =
        check_gcloud ⟨.completed 0 s, .completed rc2 out⟩ ∧
      (strip out ≠ "" → strip out ≠ "(unset)" →
        (check_gcloud ⟨.completed 0 s, .completed rc out⟩).2 = true) := by
  refine ⟨rfl, fun h1 h2 => ?_⟩
  simp [check_gcloud, h1, h2]

/-- Witness for C9 at a non-zero query status and a real project id. -/
theorem check_gcloud_second_status_ignored_witness :
    strip "demo-project\n" ≠ "" ∧ strip "demo-project\n" ≠ "(unset)" ∧
      (check_gcloud ⟨.completed 0 "sdk", .completed 7 "demo-project\n"⟩).2 = true :=
  ⟨by decide, by decide,
    (check_gcloud_second_status_ignored "sdk" "demo-project\n" 7 0).2
      (by decide) (by decide)⟩

/-- C5: the package check is the logical AND of the per-entry results:
it passes exactly when every required lookup identifier resolves to a
version string, and when at least one is absent it fails and prints the
consolidated install-command remediation line exactly once (and never
prints it on success). -/
theorem check_packages_aggregate (pv : String → Option String) :
    ((check_packages pv).2 = true ↔ ∀ p ∈ required, (pv p.2).isSome = true) ∧
    ((∃ p ∈ required, pv p.2 = none) →
      (check_packages pv).2 = false ∧
        (check_packages pv).1.count Msg.pipInstall = 1) ∧
    ((check_packages pv).2 = true → Msg.pipInstall ∉ (check_packages pv).1) :=
  ⟨check_packages_snd_iff pv,
   fun hex => ⟨check_packages_fail_of_missing pv hex, check_packages_count_pip pv hex⟩,
   check_packages_pass_no_pip pv⟩

/-- Witness for C5: one package absent makes the check fail with the
remediation line printed once; all packages present makes it pass with
no remediation line. -/
theorem check_packages_aggregate_witness :
    (∃ p ∈ required, (fun s => if s = "a2a" then none else some "1.0") p.2 = none) ∧
    (check_packages (fun s => if s = "a2a" then none else some "1.0")).2 = false ∧
    (check_packages (fun s => if s = "a2a" then none else some "1.0")).1.count
        Msg.pipInstall = 1 ∧
    (check_packages (fun _ => some "2.0")).2 = true ∧
    Msg.pipInstall ∉ (check_packages (fun _ => some "2.0")).1 :=
  ⟨by decide,
   ((check_packages_aggregate _).2.1 (by decide)).1,
   ((check_packages_aggregate _).2.1 (by decide)).2,
   by decide,
   (check_packages_aggregate _).2.2 (by decide)⟩

/-- C6: every anticipated error condition (version too low, package not
found, tool absent, tool timeout on either invocation, non-zero exit of
the first invocation, project unconfigured) is converted into a boolean
fail result of the enclosing check, and the exit code is the
deterministic function of the three check outcomes. -/
theorem checks_convert_errors :
    (∀ env : Env, (main env).2 =
      if (check_python_version env.version).2 && (check_packages env.pkgVersion).2 &&
          (check_gcloud env.gcloud).2 then 0 else 1) ∧
    (∀ v : VersionInfo, v.major < 3 ∨ (v.major = 3 ∧ v.minor < 10) →
      (check_python_version v).2 = false) ∧
    (∀ pv : String → Option String, ∀ p ∈ required, pv p.2 = none →
      (check_packages pv).2 = false) ∧
    (∀ pr : ProcOutcome2, (check_gcloud ⟨.notFound, pr⟩).2 = false) ∧
    (∀ pr : ProcOutcome2, (check_gcloud ⟨.timedOut, pr⟩).2 = false) ∧
    (∀ (rc : Int) (s : String) (pr : ProcOutcome2), rc ≠ 0 →
      (check_gcloud ⟨.completed rc s, pr⟩).2 = false) ∧
    (∀ (s out : String) (rc2 : Int), strip out = "" ∨ strip out = "(unset)" →
      (check_gcloud ⟨.completed 0 s, .completed rc2 out⟩).2 = false) ∧
    (∀ s : String, (check_gcloud ⟨.completed 0 s, .timedOut⟩).2 = false) := by
  refine ⟨?_, ?_, ?_, fun pr => rfl, fun pr => rfl, ?_, ?_, fun s => rfl⟩
  · intro env
    unfold main
    dsimp only
    split <;> simp_all
  · intro v h
    have hb : versionBelowMin v = true := by
      simp [versionBelowMin]
      omega
    simp [check_python_version, hb]
  · intro pv p hp hnone
    exact check_packages_fail_of_missing pv ⟨p, hp, hnone⟩
  · intro rc s pr h
    simp [check_gcloud, h]
  · intro s out rc2 h
    rcases h with h | h <;> simp [check_gcloud, h]

/-- Witness for C6 at concrete instances of each error condition. -/
theorem checks_convert_errors_witness :
    ((3 : Nat) < 3 ∨ ((3 : Nat) = 3 ∧ (9 : Nat) < 10)) ∧
    (check_python_version ⟨3, 9, 0⟩).2 = false ∧
    ("google-genai", "google.genai") ∈ required ∧
    (check_packages (fun _ => none)).2 = false ∧
    ((1 : Int) ≠ 0) ∧
    (check_gcloud ⟨.completed 1 "sdk", .timedOut⟩).2 = false ∧
    (strip " (unset) " = "" ∨ strip " (unset) " = "(unset)") ∧
    (check_gcloud ⟨.completed 0 "sdk", .completed 0 " (unset) "⟩).2 = false :=
  ⟨by decide,
   checks_convert_errors.2.1 ⟨3, 9, 0⟩ (by decide),
   by decide,
   checks_convert_errors.2.2.1 (fun _ => none) ("google-genai", "google.genai")
     (by decide) rfl,
   by decide,
   checks_convert_errors.2.2.2.2.2.1 1 "sdk" .timedOut (by decide),
   by decide,
   checks_convert_errors.2.2.2.2.2.2.1 "sdk" " (unset) " 0 (by decide)⟩

/-- C1: the program's exit code is 0 exactly when all three checks pass
and 1 otherwise; the affirmative closing message appears exactly on full
success and the corrective one exactly on failure; the banner and the
three checks' outputs appear in the fixed order version, packages, CLI,
followed by the closing summary. -/
theorem main_exit_code_and_summary (env : Env) :
    ((main env).2 = if (check_python_version env.version).2 &&
        (check_packages env.pkgVersion).2 && (check_gcloud env.gcloud).2 then 0 else 1) ∧
    (Msg.allPassed ∈ (main env).1 ↔ ((check_python_version env.version).2 &&
        (check_packages env.pkgVersion).2 && (check_gcloud env.gcloud).2) = true) ∧
    (Msg.someFailed ∈ (main env).1 ↔ ((check_python_version env.version).2 &&
        (check_packages env.pkgVersion).2 && (check_gcloud env.gcloud).2) = false) ∧
    (∃ closing, (main env).1 =
      [Msg.bannerLine, Msg.title, Msg.bannerLine] ++ (check_python_version env.version).1 ++
        (check_packages env.pkgVersion).1 ++ (check_gcloud env.gcloud).1 ++ closing) := by
  obtain ⟨a1, a2, a3⟩ := summary_not_in_checks env Msg.allPassed rfl
  obtain ⟨s1, s2, s3⟩ := summary_not_in_checks env Msg.someFailed rfl
  unfold main
  dsimp only
  split
  · next h =>
    refine ⟨by simp [h], ?_, ?_,
      ⟨[Msg.nlBannerLine, Msg.allPassed, Msg.nextStep], by simp⟩⟩
    · simp [h, List.mem_append]
    · simp [h, List.mem_append, s1, s2, s3]
  · next h =>
    rw [Bool.not_eq_true] at h
    refine ⟨by simp [h], ?_, ?_,
      ⟨[Msg.nlBannerLine, Msg.someFailed], by simp⟩⟩
    · simp [h, List.mem_append, a1, a2, a3]
    · simp [h, List.mem_append]

/-- C10: all three checks run unconditionally: for every environment,
the package-check and CLI-check headers are printed and the full output
of every check appears in `main`'s output, in order, regardless of
earlier failures. -/
theorem main_runs_all_checks (env : Env) :
    Msg.checkingPackages ∈ (main env).1 ∧ Msg.checkingGcloud ∈ (main env).1 ∧
    ∃ closing, (main env).1 =
      [Msg.bannerLine, Msg.title, Msg.bannerLine] ++ (check_python_version env.version).1 ++
        (check_packages env.pkgVersion).1 ++ (check_gcloud env.gcloud).1 ++ closing := by
  have hp : Msg.checkingPackages ∈ (check_packages env.pkgVersion).1 :=
    checkingPackages_mem env.pkgVersion required
  have hg : Msg.checkingGcloud ∈ (check_gcloud env.gcloud).1 :=
    checkingGcloud_mem env.gcloud
  unfold main
  dsimp only
  split
  · exact ⟨by simp [List.mem_append, hp], by simp [List.mem_append, hg],
      [Msg.nlBannerLine, Msg.allPassed, Msg.nextStep], by simp⟩
  · exact ⟨by simp [List.mem_append, hp], by simp [List.mem_append, hg],
      [Msg.nlBannerLine, Msg.someFailed], by simp⟩

end ValidateEnv
